import Mathlib

/-!
Shallow embedding of the receivables backend (`src/server.js`, the final
variant of the Express + PostgreSQL server).  The relational store is a
record of client / invoice / payment rows; each HTTP handler becomes a pure
function from the store (plus the request data and the ambient date /
random draws it consumes) to a new store and a response.  Monetary amounts
(`NUMERIC` columns and JSON numbers) are modelled as integers in the
smallest currency unit, so all arithmetic is exact and decidable; dates are
modelled as abstract day numbers ordered like the `DATE` values they stand
for.  JavaScript truthiness checks such as `!invoice.amount` are modelled on
`Option` fields: a field is falsy when it is absent, or when it is the
number 0 or the empty string.
-/

/-- A row of the `clients` table. -/
structure Client where
  id : ℕ
  full_name : String
  address : String
  contact : String
deriving DecidableEq

/-- A row of the `invoices` table. -/
structure Invoice where
  id : ℕ
  client_id : ℕ
  invoice_number : String
  item : String
  amount : ℤ
  due_date : ℕ
  status : String
  date_created : ℕ
deriving DecidableEq

/-- A row of the `payments` table. -/
structure Payment where
  id : ℕ
  invoice_id : ℕ
  mode : String
  amount : ℤ
  payment_date : ℕ
  date_created : ℕ
deriving DecidableEq

/-- The relational store.  `nextInvoiceId` / `nextPaymentId` model the
`SERIAL` id sequences of the two tables. -/
structure Store where
  clients : List Client
  invoices : List Invoice
  payments : List Payment
  nextInvoiceId : ℕ
  nextPaymentId : ℕ
deriving DecidableEq

/-- `SELECT * FROM payments WHERE invoice_id = iid` (the correlated subquery
used by the invoice / payment endpoints). -/
def paymentsOf (s : Store) (iid : ℕ) : List Payment :=
  s.payments.filter (fun p => p.invoice_id == iid)

/-- `COALESCE((SELECT SUM(amount) FROM payments WHERE invoice_id = iid), 0)`. -/
def paidTotal (s : Store) (iid : ℕ) : ℤ :=
  ((paymentsOf s iid).map (fun p => p.amount)).sum

/-- The outstanding balance of an invoice row, as computed by the correlated
subquery `amount - COALESCE((SELECT SUM(amount) FROM payments ...), 0)`
(server.js lines 302, 335). -/
def invoiceOutstanding (s : Store) (inv : Invoice) : ℤ :=
  inv.amount - paidTotal s inv.id

/-- `SELECT ... FROM invoices WHERE id = iid` (first matching row). -/
def lookupInvoice (s : Store) (iid : ℕ) : Option Invoice :=
  s.invoices.find? (fun i => i.id == iid)

/-- `SELECT ... FROM clients WHERE id = cid` (first matching row). -/
def lookupClient (s : Store) (cid : ℕ) : Option Client :=
  s.clients.find? (fun c => c.id == cid)

/-- Outstanding balance of the invoice with id `iid`, when it exists. -/
def outstandingById (s : Store) (iid : ℕ) : Option ℤ :=
  (lookupInvoice s iid).map (invoiceOutstanding s)

/-- Insertion sort step for the `ORDER BY` clauses. -/
def insertLe (le : α → α → Bool) (a : α) : List α → List α
  | [] => [a]
  | b :: bs => if le a b then a :: b :: bs else b :: insertLe le a bs

/-- `ORDER BY`, modelled as an insertion sort with a boolean comparison. -/
def sortLe (le : α → α → Bool) : List α → List α
  | [] => []
  | a :: as => insertLe le a (sortLe le as)

/-- JavaScript truthiness of an optional number field: `!x` is true when the
field is absent or is `0`. -/
def truthyNat (o : Option ℕ) : Bool :=
  match o with
  | none => false
  | some n => n != 0

/-- JavaScript truthiness of an optional string field: `!x` is true when the
field is absent or is the empty string. -/
def truthyStr (o : Option String) : Bool :=
  match o with
  | none => false
  | some t => t != ""

/-- JavaScript truthiness of an optional amount: `!x` is true when the field
is absent or is `0` (note that negative numbers are truthy). -/
def truthyInt (o : Option ℤ) : Bool :=
  match o with
  | none => false
  | some q => q != 0

/-!  GET /clients (server.js lines 63-84).

The query left-joins `clients` to `invoices` to `payments` and returns, per
client, `COALESCE(SUM(i.amount), 0) - COALESCE(SUM(p.amount), 0)`.  The join
is materialised explicitly: each invoice of the client contributes one row
per payment attached to it (or a single row with a NULL payment when it has
none), and a client without invoices contributes a single all-NULL row.  -/

/-- The `(i.amount, p.amount)` pairs of the joined rows belonging to one
client, with `none` standing for SQL NULL. -/
def clientJoinRows (s : Store) (c : Client) : List (Option ℤ × Option ℤ) :=
  let invs := s.invoices.filter (fun i => i.client_id == c.id)
  if invs.isEmpty then [(none, none)]
  else
    invs.flatMap (fun i =>
      let ps := paymentsOf s i.id
      if ps.isEmpty then [(some i.amount, none)]
      else ps.map (fun p => (some i.amount, some p.amount)))

/-- SQL `SUM` over a column with NULLs: NULL values are ignored, and the sum
of no non-NULL values is NULL. -/
def sqlSumOpt (l : List (Option ℤ)) : Option ℤ :=
  let vals := l.filterMap id
  if vals.isEmpty then none else some vals.sum

/-- The `balance` column computed by GET /clients for one client. -/
def clientBalanceJoin (s : Store) (c : Client) : ℤ :=
  (sqlSumOpt ((clientJoinRows s c).map (fun r => r.1))).getD 0
    - (sqlSumOpt ((clientJoinRows s c).map (fun r => r.2))).getD 0

/-- A row of the GET /clients response. -/
structure ClientRow where
  id : ℕ
  full_name : String
  address : String
  contact : String
  balance : ℤ
deriving DecidableEq

/-- GET /clients: every client with its joined balance, `ORDER BY c.id ASC`. -/
def getClients (s : Store) : List ClientRow :=
  (sortLe (fun a b => a.id ≤ b.id) s.clients).map (fun c =>
    { id := c.id, full_name := c.full_name, address := c.address,
      contact := c.contact, balance := clientBalanceJoin s c })

/-- The balance formula of spec section 4.1, for comparison with the joined
balance the code computes: the sum, over the client's invoices, of the
invoice's outstanding balance (each invoice's outstanding taken from the
same correlated-subquery form the other endpoints use). -/
def clientOutstandingSum (s : Store) (cid : ℕ) : ℤ :=
  ((s.invoices.filter (fun i => i.client_id == cid)).map
    (invoiceOutstanding s)).sum

/-- GET /reports/outstanding (server.js lines 402-420): the same triple left
join, grouped by `clients.full_name`, reporting
`SUM(invoices.amount) - COALESCE(SUM(payments.amount), 0)` and keeping the
groups where that value is positive (`HAVING ... > 0`; a group whose
`SUM(invoices.amount)` is NULL is dropped because `NULL > 0` is not true),
`ORDER BY totalOwed DESC`. -/
def reportOutstandingRows (s : Store) : List (String × ℤ) :=
  let names := (s.clients.map (fun c => c.full_name)).eraseDups
  let rows := names.filterMap (fun n =>
    let joined := (s.clients.filter (fun c => c.full_name == n)).flatMap
      (clientJoinRows s)
    match sqlSumOpt (joined.map (fun r => r.1)) with
    | none => none
    | some si =>
      let owed := si - (sqlSumOpt (joined.map (fun r => r.2))).getD 0
      if 0 < owed then some (n, owed) else none)
  sortLe (fun a b => b.2 ≤ a.2) rows

/-!  GET /invoices.

server.js registers two handlers for `GET "/invoices"`: the list-all
handler at line 136 and the client-filter handler at line 292.  Express
dispatches a request to the first registered route whose path matches, and
the query string is not part of the path, so the line-136 handler serves
every `GET /invoices` request — with or without a `client_id` query
parameter — and the line-292 handler is unreachable.  (Even if it were
reached, its SQL uses `HAVING` with non-grouped columns in the select list,
which PostgreSQL rejects with a grouping error.)  -/

/-- A row of the list-all GET /invoices response (line 136): the invoice
joined with its client's name, plus the correlated `total_paid` sum. -/
structure InvoiceListRow where
  id : ℕ
  invoice_number : String
  amount : ℤ
  due_date : ℕ
  status : String
  client_id : ℕ
  item : String
  date_created : ℕ
  full_name : String
  total_paid : ℤ
deriving DecidableEq

/-- The list-all GET /invoices query (line 136): inner join with `clients`,
`ORDER BY due_date ASC`. -/
def listInvoices (s : Store) : List InvoiceListRow :=
  (sortLe (fun a b => a.due_date ≤ b.due_date) s.invoices).filterMap
    (fun i => (lookupClient s i.client_id).map (fun c =>
      { id := i.id, invoice_number := i.invoice_number, amount := i.amount,
        due_date := i.due_date, status := i.status, client_id := i.client_id,
        item := i.item, date_created := i.date_created,
        full_name := c.full_name, total_paid := paidTotal s i.id }))

/-- GET /invoices as dispatched by Express: because the list-all route is
registered first (line 136) and route matching ignores the query string,
every request — whatever its `client_id` query parameter — is answered with
status 200 and the full list; the filtered handler at line 292 never runs. -/
def getInvoices (s : Store) (_clientId : Option ℕ) : ℕ × List InvoiceListRow :=
  (200, listInvoices s)

/-!  POST /invoices (server.js lines 154-203). -/

/-- One entry of the POST /invoices request body.  Fields are optional
because the body is arbitrary JSON; `status` may be omitted. -/
structure InvoiceReq where
  client_id : Option ℕ
  item : Option String
  amount : Option ℤ
  due_date : Option ℕ
  status : Option String
deriving DecidableEq

/-- The per-entry field check of the handler:
`!invoice.client_id || !invoice.item || !invoice.amount || !invoice.due_date`. -/
def invFieldsOk (e : InvoiceReq) : Bool :=
  truthyNat e.client_id && truthyStr e.item && truthyInt e.amount
    && e.due_date.isSome

/-- Errors the invoice endpoints can answer with. -/
inductive InvErr where
  /-- 400 "You can add between 1 to 5 invoices at a time." -/
  | countOutOfRange
  /-- 400 "Each invoice must have client_id, item, amount, and due_date." -/
  | missingFields
  /-- 500: the store's uniqueness constraint rejected the insert. -/
  | uniqueViolation
deriving DecidableEq

/-- `INV-${Math.floor(Math.random() * 90000) + 10000}` (line 174), with the
draw `Math.floor(Math.random() * 90000)` supplied as the argument. -/
def genInvoiceNumber (r : ℕ) : String :=
  "INV-" ++ toString (r + 10000)

/-- The invoice rows a batch inserts: the `k`-th entry consumes the `k`-th
random draw, ids come from the id sequence, `date_created` is the current
date, and `status` defaults to `"Pending"` (`invoice.status || "Pending"`). -/
def buildInvoiceRowsFrom (draws : ℕ → ℕ) (today nid k : ℕ) :
    List InvoiceReq → List Invoice
  | [] => []
  | e :: es =>
    { id := nid, client_id := e.client_id.getD 0,
      invoice_number := genInvoiceNumber (draws k),
      item := e.item.getD "", amount := e.amount.getD 0,
      due_date := e.due_date.getD 0,
      status := if truthyStr e.status then e.status.getD "" else "Pending",
      date_created := today } :: buildInvoiceRowsFrom draws today (nid + 1) (k + 1) es

/-- The rows built for a whole batch, starting at draw index 0. -/
def buildInvoiceRows (draws : ℕ → ℕ) (today nid : ℕ)
    (body : List InvoiceReq) : List Invoice :=
  buildInvoiceRowsFrom draws today nid 0 body

/-- Modelled from the spec: the repository has no schema file under `src/`;
section 6 of the spec declares `invoice_number UNIQUE` on the `invoices`
table and section 7 records that a collision surfaces as a constraint
violation (an HTTP 500 from the handler's catch).  The batch `INSERT` is a
single statement, so a violation rejects the whole batch and leaves the
table unchanged. -/
def dbInsertInvoices (s : Store) (rows : List Invoice) :
    Store × Except InvErr (List Invoice) :=
  if ((s.invoices ++ rows).map (fun i => i.invoice_number)).Nodup then
    ({ s with
        invoices := s.invoices ++ rows,
        nextInvoiceId := s.nextInvoiceId + rows.length }, .ok rows)
  else (s, .error .uniqueViolation)

/-- POST /invoices: reject a batch of size 0 or more than 5, then reject if
any entry misses a required field, then insert all rows at once. -/
def postInvoices (draws : ℕ → ℕ) (today : ℕ) (s : Store)
    (body : List InvoiceReq) : Store × Except InvErr (List Invoice) :=
  if body.length = 0 ∨ body.length > 5 then (s, .error .countOutOfRange)
  else if body.all invFieldsOk then
    dbInsertInvoices s (buildInvoiceRows draws today s.nextInvoiceId body)
  else (s, .error .missingFields)

/-!  PUT /invoices/:id (server.js lines 207-236). -/

/-- PUT /invoices/:id: 404 when the invoice does not exist; otherwise
`UPDATE invoices SET amount = COALESCE($1, amount), item = COALESCE($2, item)
WHERE id = $3 RETURNING *` — an omitted body field arrives as SQL NULL and
`COALESCE` keeps the stored value. -/
def putInvoice (s : Store) (iid : ℕ) (amount : Option ℤ)
    (item : Option String) : Store × Except String Invoice :=
  match lookupInvoice s iid with
  | none => (s, .error "Invoice not found")
  | some inv =>
    ({ s with invoices := s.invoices.map (fun x =>
        if x.id = iid then
          { x with amount := amount.getD x.amount, item := item.getD x.item }
        else x) },
     .ok { inv with
            amount := amount.getD inv.amount,
            item := item.getD inv.item })

/-- DELETE /invoices/:id (server.js lines 239-257): existence check, then
hard delete. -/
def deleteInvoice (s : Store) (iid : ℕ) : Store × Except String String :=
  match lookupInvoice s iid with
  | none => (s, .error "Invoice not found")
  | some _ =>
    ({ s with invoices := s.invoices.filter (fun i => i.id != iid) },
     .ok "Invoice deleted successfully")

/-- DELETE /clients/:id (server.js lines 118-127): no existence check — the
handler runs the DELETE and answers 200 with the success message whether or
not a matching row existed.  There is no 404 path. -/
def deleteClient (s : Store) (cid : ℕ) : Store × ℕ × String :=
  ({ s with clients := s.clients.filter (fun c => c.id != cid) },
   (200, "Client deleted successfully"))

/-!  POST /payments (server.js lines 317-375). -/

/-- One entry of the POST /payments request body. -/
structure PaymentEntry where
  invoice_id : Option ℕ
  mode : Option String
  amount : Option ℤ
deriving DecidableEq

/-- The per-entry field check: `!invoice_id || !mode || !amount`. -/
def payFieldsOk (e : PaymentEntry) : Bool :=
  truthyNat e.invoice_id && truthyStr e.mode && truthyInt e.amount

/-- Errors the POST /payments handler can answer with (all HTTP 400). -/
inductive PayErr where
  /-- "At least one payment must be provided." -/
  | emptyBatch
  /-- "Invoice, mode of payment, and amount are required." -/
  | requiredFields
  /-- "Invoice (iid) does not exist." -/
  | invoiceNotFound (iid : ℕ)
  /-- "Invoice (iid) is already fully paid." -/
  | alreadySettled (iid : ℕ)
  /-- "Payment exceeds outstanding balance for Invoice (iid)." -/
  | overpayment (iid : ℕ)
deriving DecidableEq

/-- The body of the validation loop (lines 326-354) for one entry: field
check, invoice lookup, already-settled check against the stored outstanding
balance, then overpayment check against the same balance.  The balance is
read from the store as it was before the batch — payments of earlier
entries in the same batch are not yet visible. -/
def validatePayment (s : Store) (e : PaymentEntry) : Option PayErr :=
  if payFieldsOk e then
    let iid := e.invoice_id.getD 0
    match lookupInvoice s iid with
    | none => some (.invoiceNotFound iid)
    | some inv =>
      let bal := invoiceOutstanding s inv
      if bal ≤ 0 then some (.alreadySettled iid)
      else if e.amount.getD 0 > bal then some (.overpayment iid)
      else none
  else some .requiredFields

/-- The payment rows a batch inserts, with sequential ids and both date
columns set from the current date (`CURRENT_DATE`, `CURRENT_TIMESTAMP`). -/
def buildPaymentRows (today nid : ℕ) : List PaymentEntry → List Payment
  | [] => []
  | e :: es =>
    { id := nid, invoice_id := e.invoice_id.getD 0, mode := e.mode.getD "",
      amount := e.amount.getD 0, payment_date := today,
      date_created := today } :: buildPaymentRows today (nid + 1) es

/-- POST /payments: reject an empty batch; run the validation loop, which
returns the first failing entry's error before anything is written; only if
every entry validates are all rows inserted by a single statement. -/
def postPayments (today : ℕ) (s : Store) (body : List PaymentEntry) :
    Store × Except PayErr (List Payment) :=
  if body.isEmpty then (s, .error .emptyBatch)
  else
    match body.findSome? (validatePayment s) with
    | some err => (s, .error err)
    | none =>
      let rows := buildPaymentRows today s.nextPaymentId body
      ({ s with
          payments := s.payments ++ rows,
          nextPaymentId := s.nextPaymentId + body.length }, .ok rows)

/-- DELETE /payments/:id (server.js lines 378-396): existence check, then
hard delete. -/
def deletePayment (s : Store) (pid : ℕ) : Store × Except String String :=
  match s.payments.find? (fun p => p.id == pid) with
  | none => (s, .error "Payment not found")
  | some _ =>
    ({ s with payments := s.payments.filter (fun p => p.id != pid) },
     .ok "Payment deleted successfully")

/-- The process-wide uniqueness invariant on stored invoice numbers. -/
def invoiceNumbersDistinct (s : Store) : Prop :=
  (s.invoices.map (fun i => i.invoice_number)).Nodup

/-!  Helper lemmas shared by the claim theorems. -/

/-- `findSome?` skips a prefix on which the function returns `none`. -/
theorem findSome?_append_left_none {α β : Type} (f : α → Option β)
    (pre l : List α) (h : ∀ x ∈ pre, f x = none) :
    (pre ++ l).findSome? f = l.findSome? f := by
  induction pre with
  | nil => rfl
  | cons a as ih =>
    have ha : f a = none := h a (by simp)
    simp only [List.cons_append, List.findSome?_cons, ha]
    exact ih (fun x hx => h x (by simp [hx]))

/-- `POST /payments` never touches the `invoices` table. -/
theorem postPayments_fst_invoices (t : ℕ) (s : Store) (b : List PaymentEntry) :
    (postPayments t s b).1.invoices = s.invoices := by
  unfold postPayments
  split
  · rfl
  · split <;> rfl

/-- `PUT /invoices/:id` does not change any stored invoice number. -/
theorem putInvoice_fst_numbers (s : Store) (iid : ℕ) (a : Option ℤ)
    (it : Option String) :
    ((putInvoice s iid a it).1.invoices).map (fun i => i.invoice_number) =
      s.invoices.map (fun i => i.invoice_number) := by
  unfold putInvoice
  cases hl : lookupInvoice s iid with
  | none => rfl
  | some inv =>
    simp only [List.map_map]
    exact List.map_congr_left (fun x _ => by dsimp; split <;> rfl)

/-!  Concrete stores used by the code-bug evaluations and the witnesses. -/

/-- One client with one invoice of amount 100 carrying two payments, 30 and
20 — outstanding 50. -/
def c1store : Store :=
  { clients := [⟨1, "Alice", "addr", "555"⟩],
    invoices := [⟨1, 1, "INV-10001", "widgets", 100, 5, "Pending", 0⟩],
    payments := [⟨1, 1, "cash", 30, 1, 1⟩, ⟨2, 1, "cash", 20, 2, 2⟩],
    nextInvoiceId := 2, nextPaymentId := 3 }

/-- One client with one invoice of amount 100 and no payments. -/
def c2store : Store :=
  { clients := [⟨1, "Alice", "addr", "555"⟩],
    invoices := [⟨1, 1, "INV-10001", "widgets", 100, 5, "Pending", 0⟩],
    payments := [], nextInvoiceId := 2, nextPaymentId := 1 }

/-- Two clients: Alice owns invoice 1 (amount 100, fully paid), Bob owns
invoice 2 (amount 50, unpaid). -/
def c3store : Store :=
  { clients := [⟨1, "Alice", "addr", "555"⟩, ⟨2, "Bob", "addr2", "556"⟩],
    invoices := [⟨1, 1, "INV-10001", "widgets", 100, 5, "Pending", 0⟩,
                 ⟨2, 2, "INV-10002", "gears", 50, 6, "Pending", 0⟩],
    payments := [⟨1, 1, "cash", 100, 1, 1⟩],
    nextInvoiceId := 3, nextPaymentId := 2 }

/-- Claim C1 (code bug): the spec says a client's balance is the sum of the
outstanding balances of the client's invoices, but GET /clients left-joins
payments and sums `i.amount` once per joined payment row.  With one invoice
of amount 100 carrying payments 30 and 20, the endpoint reports balance
150 (= 100·2 − 50) while the sum of outstanding balances is 50; GET
/reports/outstanding reports the same overcounted 150 as totalOwed. -/
theorem clients_balance_fanout_overcount :
    getClients c1store = [⟨1, "Alice", "addr", "555", 150⟩] ∧
    clientOutstandingSum c1store 1 = 50 ∧
    reportOutstandingRows c1store = [("Alice", 150)] ∧
    clientBalanceJoin c1store ⟨1, "Alice", "addr", "555"⟩ ≠
      clientOutstandingSum c1store 1 := by
  refine ⟨rfl, rfl, rfl, ?_⟩
  decide

/-- Claim C2 (code bug): a single POST /payments batch of 60 then 50
against an invoice with outstanding 100 passes validation — each entry is
checked against the pre-batch snapshot, so the second entry does not see
the first — and both payments commit, driving the invoice's outstanding
balance to −10 < 0. -/
theorem payments_intra_batch_double_spend :
    (postPayments 7 c2store
        [⟨some 1, some "cash", some 60⟩, ⟨some 1, some "cash", some 50⟩]).2 =
      .ok [⟨1, 1, "cash", 60, 7, 7⟩, ⟨2, 1, "cash", 50, 7, 7⟩] ∧
    outstandingById (postPayments 7 c2store
        [⟨some 1, some "cash", some 60⟩, ⟨some 1, some "cash", some 50⟩]).1 1 =
      some (-10) ∧
    (-10 : ℤ) < 0 := by
  refine ⟨rfl, rfl, ?_⟩
  decide

/-- Claim C3 (code bug): server.js registers the list-all GET /invoices
route before the client-filter route, so Express serves every GET /invoices
request from the list-all handler.  With `client_id=1` the response still
contains Bob's invoice 2 and Alice's fully settled invoice 1 (outstanding
0), and with no `client_id` at all the endpoint answers 200 with the same
full list instead of the 400 missing-client_id error. -/
theorem get_invoices_client_filter_shadowed :
    ((getInvoices c3store (some 1)).2.map (fun r => (r.id, r.client_id))) =
      [(1, 1), (2, 2)] ∧
    outstandingById c3store 1 = some 0 ∧
    getInvoices c3store none = (200, (getInvoices c3store (some 1)).2) := by
  exact ⟨rfl, rfl, rfl⟩

/-- One client with one invoice of amount 100 and no payments (fresh copy
for the negative-amount evaluation). -/
def c8store : Store :=
  { clients := [⟨1, "Alice", "addr", "555"⟩],
    invoices := [⟨1, 1, "INV-10001", "widgets", 100, 5, "Pending", 0⟩],
    payments := [], nextInvoiceId := 2, nextPaymentId := 1 }

/-- Claim C8 (code bug): the field check `!amount` only rejects a zero
amount; a negative amount is truthy, passes the already-settled check
(100 > 0) and the overpayment check (−5 > 100 is false), and is committed,
so a persisted payment row carries the strictly negative amount −5. -/
theorem negative_payment_amount_committed :
    postPayments 7 c8store [⟨some 1, some "cash", some (-5)⟩] =
      ({ c8store with
          payments := [⟨1, 1, "cash", -5, 7, 7⟩], nextPaymentId := 2 },
       .ok [⟨1, 1, "cash", -5, 7, 7⟩]) ∧
    (-5 : ℤ) < 0 := by
  refine ⟨rfl, ?_⟩
  decide

/-- Claim C4: whenever any entry of a POST /payments batch fails validation
or a business rule, the whole call fails and the store is exactly the store
before the call — the validation loop runs to completion (or returns the
first error) before the single INSERT statement, so an error response never
comes with a partial write. -/
theorem post_payments_all_or_nothing (t : ℕ) (s : Store)
    (b : List PaymentEntry) :
    ((∃ e ∈ b, validatePayment s e ≠ none) →
      ∃ err, postPayments t s b = (s, .error err)) ∧
    (∀ err, (postPayments t s b).2 = .error err → (postPayments t s b).1 = s) := by
  constructor
  · rintro ⟨e, he, hne⟩
    have hb : b.isEmpty = false := by
      cases b with
      | nil => cases he
      | cons x xs => rfl
    unfold postPayments
    rw [hb]
    simp only [Bool.false_eq_true, if_false]
    cases hfind : b.findSome? (validatePayment s) with
    | some err => exact ⟨err, rfl⟩
    | none => exact absurd (List.findSome?_eq_none_iff.mp hfind e he) hne
  · intro err h
    cases b with
    | nil => rfl
    | cons x xs =>
      unfold postPayments at h ⊢
      simp only [List.isEmpty_cons, Bool.false_eq_true, if_false] at h ⊢
      cases hfind : (x :: xs).findSome? (validatePayment s) with
      | some e2 => rfl
      | none => simp [hfind] at h

/-- A store for the C4 witness: one invoice, and a batch entry with a
missing invoice id. -/
def c4store : Store :=
  { clients := [⟨1, "Alice", "addr", "555"⟩],
    invoices := [⟨1, 1, "INV-10001", "widgets", 100, 5, "Pending", 0⟩],
    payments := [], nextInvoiceId := 2, nextPaymentId := 1 }

/-- Witness for C4 at a concrete input: a batch whose single entry lacks an
invoice id is rejected with the store unchanged. -/
theorem post_payments_all_or_nothing_witness :
    ∃ err, postPayments 7 c4store [⟨none, some "cash", some 5⟩] =
      (c4store, .error err) :=
  (post_payments_all_or_nothing 7 c4store [⟨none, some "cash", some 5⟩]).1
    ⟨⟨none, some "cash", some 5⟩, by decide, by decide⟩

/-- Claim C5: for an entry whose fields pass the presence check, the
validation loop reports the invoice-not-found error when no invoice has the
given id; when the invoice exists it reports the already-settled error
exactly when the stored outstanding balance is ≤ 0, and the overpayment
error exactly when that balance is positive and the entry's amount exceeds
it (the checks run in the order of spec 4.3, so the overpayment check is
only reached once the settled check has passed); and the POST /payments
call answers with the error of the first entry that fails, leaving the
store unchanged. -/
theorem post_payments_error_conditions :
    (∀ (s : Store) (e : PaymentEntry), payFieldsOk e = true →
      (lookupInvoice s (e.invoice_id.getD 0) = none →
        validatePayment s e = some (.invoiceNotFound (e.invoice_id.getD 0))) ∧
      (∀ inv, lookupInvoice s (e.invoice_id.getD 0) = some inv →
        ((validatePayment s e = some (.alreadySettled (e.invoice_id.getD 0))) ↔
          invoiceOutstanding s inv ≤ 0) ∧
        ((validatePayment s e = some (.overpayment (e.invoice_id.getD 0))) ↔
          0 < invoiceOutstanding s inv ∧
            e.amount.getD 0 > invoiceOutstanding s inv))) ∧
    (∀ (t : ℕ) (s : Store) (pre rest : List PaymentEntry) (e : PaymentEntry)
        (err : PayErr), (∀ x ∈ pre, validatePayment s x = none) →
      validatePayment s e = some err →
      postPayments t s (pre ++ e :: rest) = (s, .error err)) := by
  constructor
  · intro s e hf
    unfold validatePayment
    simp only [hf, if_true]
    constructor
    · intro hnone
      rw [hnone]
    · intro inv hinv
      rw [hinv]
      dsimp only
      constructor
      · constructor
        · intro h
          by_cases h0 : invoiceOutstanding s inv ≤ 0
          · exact h0
          · rw [if_neg h0] at h
            split at h <;> simp_all
        · intro h0
          rw [if_pos h0]
      · constructor
        · intro h
          by_cases h0 : invoiceOutstanding s inv ≤ 0
          · rw [if_pos h0] at h; simp_all
          · rw [if_neg h0] at h
            by_cases h1 : e.amount.getD 0 > invoiceOutstanding s inv
            · exact ⟨by omega, h1⟩
            · rw [if_neg h1] at h; cases h
        · rintro ⟨h0, h1⟩
          rw [if_neg (by omega : ¬ invoiceOutstanding s inv ≤ 0), if_pos h1]
  · intro t s pre rest e err hpre he
    have hne : (pre ++ e :: rest).isEmpty = false := by
      cases pre <;> rfl
    have hfind : (pre ++ e :: rest).findSome? (validatePayment s) = some err := by
      rw [findSome?_append_left_none _ _ _ hpre]
      simp [List.findSome?_cons, he]
    unfold postPayments
    rw [hne, hfind]
    rfl

/-- A store for the C5 witness: invoice 1 of amount 100 is fully paid. -/
def c5store : Store :=
  { clients := [⟨1, "Alice", "addr", "555"⟩],
    invoices := [⟨1, 1, "INV-10001", "widgets", 100, 5, "Pending", 0⟩],
    payments := [⟨1, 1, "cash", 100, 1, 1⟩],
    nextInvoiceId := 2, nextPaymentId := 2 }

/-- Witness for C5 at a concrete input: paying 5 against the fully paid
invoice 1 trips the already-settled error and fails the whole call. -/
theorem post_payments_error_conditions_witness :
    validatePayment c5store ⟨some 1, some "cash", some 5⟩ =
      some (.alreadySettled 1) ∧
    postPayments 7 c5store [⟨some 1, some "cash", some 5⟩] =
      (c5store, .error (.alreadySettled 1)) := by
  have h1 := ((post_payments_error_conditions.1 c5store
      ⟨some 1, some "cash", some 5⟩ (by decide)).2
      ⟨1, 1, "INV-10001", "widgets", 100, 5, "Pending", 0⟩ rfl).1.mpr (by decide)
  exact ⟨h1, post_payments_error_conditions.2 7 c5store [] []
      ⟨some 1, some "cash", some 5⟩ (.alreadySettled 1)
      (fun x hx => absurd hx (List.not_mem_nil x)) h1⟩

/-- Claim C6: under the store's uniqueness constraint on `invoice_number`
(modelled from the spec, see `dbInsertInvoices`), the stored invoice
numbers stay pairwise distinct across every operation of the process: a
successful POST /invoices commits only number-disjoint rows — two equal
numbers in one batch, or one colliding with an existing row, make the whole
insert fail instead — and no other endpoint creates or renames an invoice. -/
theorem invoice_numbers_distinct_preserved :
    (∀ (draws : ℕ → ℕ) (t : ℕ) (s : Store) (b : List InvoiceReq) (s' : Store)
        (rows : List Invoice), invoiceNumbersDistinct s →
      postInvoices draws t s b = (s', .ok rows) → invoiceNumbersDistinct s') ∧
    (∀ (t : ℕ) (s : Store) (b : List PaymentEntry), invoiceNumbersDistinct s →
      invoiceNumbersDistinct (postPayments t s b).1) ∧
    (∀ (s : Store) (iid : ℕ) (a : Option ℤ) (it : Option String),
      invoiceNumbersDistinct s →
      invoiceNumbersDistinct (putInvoice s iid a it).1) ∧
    (∀ (s : Store) (iid : ℕ), invoiceNumbersDistinct s →
      invoiceNumbersDistinct (deleteInvoice s iid).1) ∧
    (∀ (s : Store) (cid : ℕ), invoiceNumbersDistinct s →
      invoiceNumbersDistinct (deleteClient s cid).1) ∧
    (∀ (s : Store) (pid : ℕ), invoiceNumbersDistinct s →
      invoiceNumbersDistinct (deletePayment s pid).1) := by
  refine ⟨?_, ?_, ?_, ?_, ?_, ?_⟩
  · intro draws t s b s' rows _hs h
    unfold postInvoices at h
    split at h
    · cases h
    · split at h
      · unfold dbInsertInvoices at h
        split at h
        · next hc =>
            cases h
            exact hc
        · cases h
      · cases h
  · intro t s b hs
    unfold invoiceNumbersDistinct at hs ⊢
    rw [postPayments_fst_invoices]
    exact hs
  · intro s iid a it hs
    unfold invoiceNumbersDistinct at hs ⊢
    rw [putInvoice_fst_numbers]
    exact hs
  · intro s iid hs
    unfold invoiceNumbersDistinct at hs ⊢
    unfold deleteInvoice
    cases hl : lookupInvoice s iid with
    | none => exact hs
    | some inv =>
      exact hs.sublist ((List.filter_sublist s.invoices).map
        (fun i => i.invoice_number))
  · intro s cid hs
    exact hs
  · intro s pid hs
    unfold invoiceNumbersDistinct at hs ⊢
    unfold deletePayment
    cases hl : s.payments.find? (fun p => p.id == pid) with
    | none => exact hs
    | some p => exact hs

/-- A store for the C6 witness: one client, no invoices yet. -/
def c6store : Store :=
  { clients := [⟨1, "Alice", "addr", "555"⟩], invoices := [], payments := [],
    nextInvoiceId := 1, nextPaymentId := 1 }

/-- Witness for C6 at a concrete input: a successful one-invoice batch
(random draw 7, so number INV-10007) leaves the store's invoice numbers
pairwise distinct. -/
theorem invoice_numbers_distinct_preserved_witness :
    invoiceNumbersDistinct
      { clients := [⟨1, "Alice", "addr", "555"⟩],
        invoices := [⟨1, 1, "INV-10007", "widgets", 100, 5, "Pending", 9⟩],
        payments := [], nextInvoiceId := 2, nextPaymentId := 1 } :=
  invoice_numbers_distinct_preserved.1 (fun _ => 7) 9 c6store
    [⟨some 1, some "widgets", some 100, some 5, none⟩]
    _ [⟨1, 1, "INV-10007", "widgets", 100, 5, "Pending", 9⟩]
    (by unfold invoiceNumbersDistinct; decide) (by rfl)

/-- A store for C7 that already holds an invoice numbered INV-10000. -/
def c7store : Store :=
  { clients := [⟨1, "Alice", "addr", "555"⟩],
    invoices := [⟨1, 1, "INV-10000", "widgets", 100, 5, "Pending", 0⟩],
    payments := [], nextInvoiceId := 2, nextPaymentId := 1 }

/-- Counterexample to claim C7 as stated: a batch of size one whose entry
carries client_id, item, amount and due_date is nevertheless rejected — the
random draw 0 generates the number INV-10000, which collides with an
existing invoice, so the store's uniqueness constraint fails the insert and
nothing is persisted. -/
theorem post_invoices_collision_cex :
    invFieldsOk ⟨some 1, some "gears", some 50, some 6, none⟩ = true ∧
    postInvoices (fun _ => 0) 9 c7store
        [⟨some 1, some "gears", some 50, some 6, none⟩] =
      (c7store, .error .uniqueViolation) :=
  ⟨rfl, rfl⟩

/-- Claim C7 as amended: a batch of size 0 or more than 5 is rejected with
the validation error and nothing is written; a batch of size 1 to 5 whose
entries all carry the required fields is accepted with every invoice
persisted provided the generated invoice numbers collide neither with each
other nor with a stored invoice number — on a collision the uniqueness
constraint rejects the whole batch and nothing is written. -/
theorem post_invoices_batch_bounds_amended (draws : ℕ → ℕ) (t : ℕ)
    (s : Store) (b : List InvoiceReq) :
    (b.length = 0 ∨ b.length > 5 →
      postInvoices draws t s b = (s, .error .countOutOfRange)) ∧
    (1 ≤ b.length → b.length ≤ 5 → b.all invFieldsOk = true →
      (((s.invoices ++ buildInvoiceRows draws t s.nextInvoiceId b).map
          (fun i => i.invoice_number)).Nodup →
        postInvoices draws t s b =
          ({ s with
              invoices := s.invoices ++
                buildInvoiceRows draws t s.nextInvoiceId b,
              nextInvoiceId := s.nextInvoiceId +
                (buildInvoiceRows draws t s.nextInvoiceId b).length },
           .ok (buildInvoiceRows draws t s.nextInvoiceId b))) ∧
      (¬ ((s.invoices ++ buildInvoiceRows draws t s.nextInvoiceId b).map
          (fun i => i.invoice_number)).Nodup →
        postInvoices draws t s b = (s, .error .uniqueViolation))) := by
  constructor
  · intro h
    unfold postInvoices
    rw [if_pos h]
  · intro h1 h5 hall
    have hcount : ¬ (b.length = 0 ∨ b.length > 5) := by omega
    unfold postInvoices
    rw [if_neg hcount, if_pos hall]
    unfold dbInsertInvoices
    constructor
    · intro hn
      rw [if_pos hn]
    · intro hn
      rw [if_neg hn]

/-- Witness for the amended C7: an empty batch is rejected with the count
error, and a size-one batch whose generated number INV-10007 is fresh
commits and appends its row. -/
theorem post_invoices_batch_bounds_amended_witness :
    postInvoices (fun _ => 0) 9 c7store [] =
      (c7store, .error .countOutOfRange) ∧
    postInvoices (fun _ => 7) 9 c7store
        [⟨some 1, some "gears", some 50, some 6, none⟩] =
      ({ c7store with
          invoices := c7store.invoices ++
            buildInvoiceRows (fun _ => 7) 9 c7store.nextInvoiceId
              [⟨some 1, some "gears", some 50, some 6, none⟩],
          nextInvoiceId := c7store.nextInvoiceId +
            (buildInvoiceRows (fun _ => 7) 9 c7store.nextInvoiceId
              [⟨some 1, some "gears", some 50, some 6, none⟩]).length },
       .ok (buildInvoiceRows (fun _ => 7) 9 c7store.nextInvoiceId
            [⟨some 1, some "gears", some 50, some 6, none⟩])) :=
  ⟨(post_invoices_batch_bounds_amended (fun _ => 0) 9 c7store []).1 (Or.inl rfl),
   ((post_invoices_batch_bounds_amended (fun _ => 7) 9 c7store
      [⟨some 1, some "gears", some 50, some 6, none⟩]).2 (by decide) (by decide)
      (by decide)).1 (by decide)⟩

/-- Claim C9: PUT /invoices/:id on a missing id fails with 404 and leaves
the store untouched; on an existing invoice it returns the row updated
COALESCE-style — an omitted amount or item keeps its prior value — while
every stored row keeps its id, invoice_number, client_id, due_date, status
and date_created, rows with other ids are completely unchanged, and the
clients and payments tables are untouched. -/
theorem put_invoice_partial_update_frame (s : Store) (iid : ℕ) (a : Option ℤ)
    (it : Option String) :
    (lookupInvoice s iid = none →
      putInvoice s iid a it = (s, .error "Invoice not found")) ∧
    (∀ inv, lookupInvoice s iid = some inv →
      (putInvoice s iid a it).2 =
        .ok { inv with amount := a.getD inv.amount, item := it.getD inv.item } ∧
      (putInvoice s iid a it).1.clients = s.clients ∧
      (putInvoice s iid a it).1.payments = s.payments ∧
      List.Forall₂ (fun old new =>
          new.id = old.id ∧ new.invoice_number = old.invoice_number ∧
          new.client_id = old.client_id ∧ new.due_date = old.due_date ∧
          new.status = old.status ∧ new.date_created = old.date_created ∧
          (old.id ≠ iid → new = old) ∧
          (old.id = iid → new.amount = a.getD old.amount ∧
            new.item = it.getD old.item))
        s.invoices ((putInvoice s iid a it).1.invoices)) := by
  constructor
  · intro h
    unfold putInvoice
    rw [h]
  · intro inv hinv
    unfold putInvoice
    rw [hinv]
    refine ⟨rfl, rfl, rfl, ?_⟩
    dsimp only
    rw [List.forall₂_map_right_iff, List.forall₂_same]
    intro x _hx
    by_cases hxi : x.id = iid
    · simp [hxi]
    · simp [hxi]

/-- A store for the C9 witness. -/
def c9store : Store :=
  { clients := [⟨1, "Alice", "addr", "555"⟩],
    invoices := [⟨1, 1, "INV-10001", "widgets", 100, 5, "Pending", 0⟩],
    payments := [], nextInvoiceId := 2, nextPaymentId := 1 }

/-- Witness for C9 at a concrete input: updating only the amount to 70
returns the row with the item, number, dates and status untouched. -/
theorem put_invoice_partial_update_frame_witness :
    (putInvoice c9store 1 (some 70) none).2 =
      .ok ⟨1, 1, "INV-10001", "widgets", 70, 5, "Pending", 0⟩ :=
  ((put_invoice_partial_update_frame c9store 1 (some 70) none).2
    ⟨1, 1, "INV-10001", "widgets", 100, 5, "Pending", 0⟩ rfl).1

/-- Claim C10: DELETE /clients/:id answers 200 with the success message for
every id and every store — there is no existence check and no 404 path, so
deleting a missing client is indistinguishable from deleting a present one;
by contrast invoice and payment deletion answer the not-found error when no
row matches. -/
theorem delete_client_unconditional_success :
    (∀ (s : Store) (cid : ℕ),
      (deleteClient s cid).2 = (200, "Client deleted successfully")) ∧
    (∀ (s : Store) (iid : ℕ), lookupInvoice s iid = none →
      deleteInvoice s iid = (s, .error "Invoice not found")) ∧
    (∀ (s : Store) (pid : ℕ), s.payments.find? (fun p => p.id == pid) = none →
      deletePayment s pid = (s, .error "Payment not found")) := by
  refine ⟨fun s cid => rfl, fun s iid h => ?_, fun s pid h => ?_⟩
  · unfold deleteInvoice
    rw [h]
  · unfold deletePayment
    rw [h]

/-- A store for the C10 witness. -/
def c10store : Store :=
  { clients := [⟨1, "Alice", "addr", "555"⟩],
    invoices := [⟨1, 1, "INV-10001", "widgets", 100, 5, "Pending", 0⟩],
    payments := [⟨1, 1, "cash", 30, 1, 1⟩],
    nextInvoiceId := 2, nextPaymentId := 2 }

/-- Witness for C10 at a concrete input: deleting the missing client 99
still answers the success message, while deleting the missing invoice 99
and the missing payment 99 answer their not-found errors. -/
theorem delete_client_unconditional_success_witness :
    (deleteClient c10store 99).2 = (200, "Client deleted successfully") ∧
    deleteInvoice c10store 99 = (c10store, .error "Invoice not found") ∧
    deletePayment c10store 99 = (c10store, .error "Payment not found") :=
  ⟨delete_client_unconditional_success.1 c10store 99,
   delete_client_unconditional_success.2.1 c10store 99 rfl,
   delete_client_unconditional_success.2.2 c10store 99 rfl⟩
